import Mathlib

/-!
Verification of the declaration-level contract of the YearnCore repository:
the libretro API header (`Sources/CLibretro/include/libretro.h`) and the
static multi-core symbol table (`Sources/CLibretro/include/static_cores.h`).

Both source files are pure interface declarations, so the shallow embedding
records them as data: C types as an inductive, function declarations as
(name, parameter types, return type) triples, `#define` constants as
(name, value) pairs, and struct layouts as ordered field lists.
-/

namespace Yearn

/-- The C types occurring in the two headers' declarations.  The typedef'd
callback function-pointer types are kept as atomic named types, as both
headers refer to them only by their typedef names.  `bool` stands for both
the C99 `_Bool` spelling used in `libretro.h` and the `<stdbool.h>` `bool`
macro used in `static_cores.h`, which the C standard defines to be `_Bool`. -/
inductive CType where
  | void
  | bool
  | unsigned
  | size_t
  | int16
  | charConstPtr          -- const char *
  | voidPtr               -- void *
  | voidConstPtr          -- const void *
  | gameInfoConstPtr      -- const struct retro_game_info *
  | systemInfoPtr         -- struct retro_system_info *
  | systemAvInfoPtr       -- struct retro_system_av_info *
  | retro_environment_t
  | retro_video_refresh_t
  | retro_audio_sample_t
  | retro_audio_sample_batch_t
  | retro_input_poll_t
  | retro_input_state_t
  deriving DecidableEq, Repr

/-- A C function declaration: name, parameter types in order, return type. -/
structure CFunSig where
  name : String
  params : List CType
  ret : CType
  deriving DecidableEq, Repr

/-- The underlying signature of a function-pointer typedef. -/
structure CFunType where
  params : List CType
  ret : CType
  deriving DecidableEq, Repr

/-- `typedef _Bool (*retro_environment_t)(unsigned cmd, void *data);`
(libretro.h line 229). -/
def retro_environment_t_sig : CFunType :=
  ⟨[.unsigned, .voidPtr], .bool⟩

/-- `typedef void (*retro_video_refresh_t)(const void *data, unsigned width,
unsigned height, size_t pitch);` (libretro.h line 230). -/
def retro_video_refresh_t_sig : CFunType :=
  ⟨[.voidConstPtr, .unsigned, .unsigned, .size_t], .void⟩

/-- `typedef void (*retro_audio_sample_t)(int16_t left, int16_t right);`
(libretro.h line 231). -/
def retro_audio_sample_t_sig : CFunType :=
  ⟨[.int16, .int16], .void⟩

/-- `typedef size_t (*retro_audio_sample_batch_t)(const int16_t *data,
size_t frames);` (libretro.h line 232); the `const int16_t *` parameter is
recorded as a const pointer to non-void data. -/
def retro_audio_sample_batch_t_sig : CFunType :=
  ⟨[.voidConstPtr, .size_t], .size_t⟩

/-- `typedef void (*retro_input_poll_t)(void);` (libretro.h line 233). -/
def retro_input_poll_t_sig : CFunType :=
  ⟨[], .void⟩

/-- `typedef int16_t (*retro_input_state_t)(unsigned port, unsigned device,
unsigned index, unsigned id);` (libretro.h line 234). -/
def retro_input_state_t_sig : CFunType :=
  ⟨[.unsigned, .unsigned, .unsigned, .unsigned], .int16⟩

/-- The 25 core API function declarations of the base libretro API,
transcribed in source order from libretro.h lines 237-271. -/
def baseAPI : List CFunSig := [
  ⟨"retro_set_environment", [.retro_environment_t], .void⟩,
  ⟨"retro_set_video_refresh", [.retro_video_refresh_t], .void⟩,
  ⟨"retro_set_audio_sample", [.retro_audio_sample_t], .void⟩,
  ⟨"retro_set_audio_sample_batch", [.retro_audio_sample_batch_t], .void⟩,
  ⟨"retro_set_input_poll", [.retro_input_poll_t], .void⟩,
  ⟨"retro_set_input_state", [.retro_input_state_t], .void⟩,
  ⟨"retro_init", [], .void⟩,
  ⟨"retro_deinit", [], .void⟩,
  ⟨"retro_api_version", [], .unsigned⟩,
  ⟨"retro_get_system_info", [.systemInfoPtr], .void⟩,
  ⟨"retro_get_system_av_info", [.systemAvInfoPtr], .void⟩,
  ⟨"retro_set_controller_port_device", [.unsigned, .unsigned], .void⟩,
  ⟨"retro_reset", [], .void⟩,
  ⟨"retro_run", [], .void⟩,
  ⟨"retro_serialize_size", [], .size_t⟩,
  ⟨"retro_serialize", [.voidPtr, .size_t], .bool⟩,
  ⟨"retro_unserialize", [.voidConstPtr, .size_t], .bool⟩,
  ⟨"retro_cheat_reset", [], .void⟩,
  ⟨"retro_cheat_set", [.unsigned, .bool, .charConstPtr], .void⟩,
  ⟨"retro_load_game", [.gameInfoConstPtr], .bool⟩,
  ⟨"retro_load_game_special", [.unsigned, .gameInfoConstPtr, .size_t], .bool⟩,
  ⟨"retro_unload_game", [], .void⟩,
  ⟨"retro_get_region", [], .unsigned⟩,
  ⟨"retro_get_memory_data", [.unsigned], .voidPtr⟩,
  ⟨"retro_get_memory_size", [.unsigned], .size_t⟩]

/-- The declaration list produced by the `DECLARE_LIBRETRO_CORE(PREFIX)`
macro of static_cores.h lines 27-52, transcribed line by line in macro
order; token pasting `PREFIX##_retro_init` becomes string concatenation.
The `bool` spellings of the macro (from `<stdbool.h>`) denote C `_Bool`
and are recorded as `CType.bool`. -/
def DECLARE_LIBRETRO_CORE (p : String) : List CFunSig := [
  ⟨p ++ "_retro_init", [], .void⟩,
  ⟨p ++ "_retro_deinit", [], .void⟩,
  ⟨p ++ "_retro_api_version", [], .unsigned⟩,
  ⟨p ++ "_retro_get_system_info", [.systemInfoPtr], .void⟩,
  ⟨p ++ "_retro_get_system_av_info", [.systemAvInfoPtr], .void⟩,
  ⟨p ++ "_retro_set_environment", [.retro_environment_t], .void⟩,
  ⟨p ++ "_retro_set_video_refresh", [.retro_video_refresh_t], .void⟩,
  ⟨p ++ "_retro_set_audio_sample", [.retro_audio_sample_t], .void⟩,
  ⟨p ++ "_retro_set_audio_sample_batch", [.retro_audio_sample_batch_t], .void⟩,
  ⟨p ++ "_retro_set_input_poll", [.retro_input_poll_t], .void⟩,
  ⟨p ++ "_retro_set_input_state", [.retro_input_state_t], .void⟩,
  ⟨p ++ "_retro_reset", [], .void⟩,
  ⟨p ++ "_retro_run", [], .void⟩,
  ⟨p ++ "_retro_load_game", [.gameInfoConstPtr], .bool⟩,
  ⟨p ++ "_retro_load_game_special", [.unsigned, .gameInfoConstPtr, .size_t], .bool⟩,
  ⟨p ++ "_retro_unload_game", [], .void⟩,
  ⟨p ++ "_retro_serialize_size", [], .size_t⟩,
  ⟨p ++ "_retro_serialize", [.voidPtr, .size_t], .bool⟩,
  ⟨p ++ "_retro_unserialize", [.voidConstPtr, .size_t], .bool⟩,
  ⟨p ++ "_retro_get_memory_data", [.unsigned], .voidPtr⟩,
  ⟨p ++ "_retro_get_memory_size", [.unsigned], .size_t⟩,
  ⟨p ++ "_retro_get_region", [], .unsigned⟩,
  ⟨p ++ "_retro_cheat_reset", [], .void⟩,
  ⟨p ++ "_retro_cheat_set", [.unsigned, .bool, .charConstPtr], .void⟩,
  ⟨p ++ "_retro_set_controller_port_device", [.unsigned, .unsigned], .void⟩]

/-- The per-core prefixes instantiated by static_cores.h lines 58-81, one
`DECLARE_LIBRETRO_CORE(...)` each, in source order. -/
def corePrefixes : List String :=
  ["fceumm", "gambatte", "mgba", "clownmdemu",
   "melonds", "mupen64plus_next", "pcsx_rearmed", "bsnes"]

/-- `d` is the `p`-prefixed counterpart of base declaration `b`: its name is
`p` + underscore + the base name and its parameter and return types agree. -/
def prefixedCounterpart (p : String) (b d : CFunSig) : Prop :=
  d.name = p ++ "_" ++ b.name ∧ d.params = b.params ∧ d.ret = b.ret

instance (p : String) (b d : CFunSig) : Decidable (prefixedCounterpart p b d) := by
  unfold prefixedCounterpart; infer_instance

/-- The conformance property of one per-core declaration block: every base
function has exactly one prefixed counterpart with identical signature, and
every declaration in the block is the counterpart of some base function. -/
def coreBlockMatchesBase (p : String) : Prop :=
  (∀ b ∈ baseAPI,
      (DECLARE_LIBRETRO_CORE p).countP (fun d => decide (prefixedCounterpart p b d)) = 1) ∧
  (∀ d ∈ DECLARE_LIBRETRO_CORE p, ∃ b ∈ baseAPI, prefixedCounterpart p b d)

instance (p : String) : Decidable (coreBlockMatchesBase p) := by
  unfold coreBlockMatchesBase; infer_instance

/-- The device-type constants, libretro.h lines 44-50, in source order. -/
def deviceTypes : List (String × Nat) := [
  ("RETRO_DEVICE_NONE", 0),
  ("RETRO_DEVICE_JOYPAD", 1),
  ("RETRO_DEVICE_MOUSE", 2),
  ("RETRO_DEVICE_KEYBOARD", 3),
  ("RETRO_DEVICE_LIGHTGUN", 4),
  ("RETRO_DEVICE_ANALOG", 5),
  ("RETRO_DEVICE_POINTER", 6)]

/-- The joypad-button id constants, libretro.h lines 53-69, in source order. -/
def joypadButtons : List (String × Nat) := [
  ("RETRO_DEVICE_ID_JOYPAD_B", 0),
  ("RETRO_DEVICE_ID_JOYPAD_Y", 1),
  ("RETRO_DEVICE_ID_JOYPAD_SELECT", 2),
  ("RETRO_DEVICE_ID_JOYPAD_START", 3),
  ("RETRO_DEVICE_ID_JOYPAD_UP", 4),
  ("RETRO_DEVICE_ID_JOYPAD_DOWN", 5),
  ("RETRO_DEVICE_ID_JOYPAD_LEFT", 6),
  ("RETRO_DEVICE_ID_JOYPAD_RIGHT", 7),
  ("RETRO_DEVICE_ID_JOYPAD_A", 8),
  ("RETRO_DEVICE_ID_JOYPAD_X", 9),
  ("RETRO_DEVICE_ID_JOYPAD_L", 10),
  ("RETRO_DEVICE_ID_JOYPAD_R", 11),
  ("RETRO_DEVICE_ID_JOYPAD_L2", 12),
  ("RETRO_DEVICE_ID_JOYPAD_R2", 13),
  ("RETRO_DEVICE_ID_JOYPAD_L3", 14),
  ("RETRO_DEVICE_ID_JOYPAD_R3", 15),
  ("RETRO_DEVICE_ID_JOYPAD_MASK", 256)]

/-- The environment-command id constants, libretro.h lines 78-143, in source
order (the source defines SET_AUDIO_CALLBACK = 22 on the line before
SET_FRAME_TIME_CALLBACK = 21). -/
def environmentCommands : List (String × Nat) := [
  ("RETRO_ENVIRONMENT_SET_ROTATION", 1),
  ("RETRO_ENVIRONMENT_GET_OVERSCAN", 2),
  ("RETRO_ENVIRONMENT_GET_CAN_DUPE", 3),
  ("RETRO_ENVIRONMENT_SET_MESSAGE", 6),
  ("RETRO_ENVIRONMENT_SHUTDOWN", 7),
  ("RETRO_ENVIRONMENT_SET_PERFORMANCE_LEVEL", 8),
  ("RETRO_ENVIRONMENT_GET_SYSTEM_DIRECTORY", 9),
  ("RETRO_ENVIRONMENT_SET_PIXEL_FORMAT", 10),
  ("RETRO_ENVIRONMENT_SET_INPUT_DESCRIPTORS", 11),
  ("RETRO_ENVIRONMENT_SET_KEYBOARD_CALLBACK", 12),
  ("RETRO_ENVIRONMENT_SET_DISK_CONTROL_INTERFACE", 13),
  ("RETRO_ENVIRONMENT_SET_HW_RENDER", 14),
  ("RETRO_ENVIRONMENT_GET_VARIABLE", 15),
  ("RETRO_ENVIRONMENT_SET_VARIABLES", 16),
  ("RETRO_ENVIRONMENT_GET_VARIABLE_UPDATE", 17),
  ("RETRO_ENVIRONMENT_SET_SUPPORT_NO_GAME", 18),
  ("RETRO_ENVIRONMENT_GET_LIBRETRO_PATH", 19),
  ("RETRO_ENVIRONMENT_SET_AUDIO_CALLBACK", 22),
  ("RETRO_ENVIRONMENT_SET_FRAME_TIME_CALLBACK", 21),
  ("RETRO_ENVIRONMENT_GET_RUMBLE_INTERFACE", 23),
  ("RETRO_ENVIRONMENT_GET_INPUT_DEVICE_CAPABILITIES", 24),
  ("RETRO_ENVIRONMENT_GET_LOG_INTERFACE", 27),
  ("RETRO_ENVIRONMENT_GET_PERF_INTERFACE", 28),
  ("RETRO_ENVIRONMENT_GET_LOCATION_INTERFACE", 29),
  ("RETRO_ENVIRONMENT_GET_CORE_ASSETS_DIRECTORY", 30),
  ("RETRO_ENVIRONMENT_GET_SAVE_DIRECTORY", 31),
  ("RETRO_ENVIRONMENT_SET_SYSTEM_AV_INFO", 32),
  ("RETRO_ENVIRONMENT_SET_PROC_ADDRESS_CALLBACK", 33),
  ("RETRO_ENVIRONMENT_SET_SUBSYSTEM_INFO", 34),
  ("RETRO_ENVIRONMENT_SET_CONTROLLER_INFO", 35),
  ("RETRO_ENVIRONMENT_SET_MEMORY_MAPS", 36),
  ("RETRO_ENVIRONMENT_SET_GEOMETRY", 37),
  ("RETRO_ENVIRONMENT_GET_USERNAME", 38),
  ("RETRO_ENVIRONMENT_GET_LANGUAGE", 39),
  ("RETRO_ENVIRONMENT_GET_CURRENT_SOFTWARE_FRAMEBUFFER", 40),
  ("RETRO_ENVIRONMENT_GET_HW_RENDER_INTERFACE", 41),
  ("RETRO_ENVIRONMENT_SET_SUPPORT_ACHIEVEMENTS", 42),
  ("RETRO_ENVIRONMENT_SET_HW_RENDER_CONTEXT_NEGOTIATION_INTERFACE", 43),
  ("RETRO_ENVIRONMENT_SET_SERIALIZATION_QUIRKS", 44),
  ("RETRO_ENVIRONMENT_GET_VFS_INTERFACE", 45),
  ("RETRO_ENVIRONMENT_GET_LED_INTERFACE", 46),
  ("RETRO_ENVIRONMENT_GET_AUDIO_VIDEO_ENABLE", 47),
  ("RETRO_ENVIRONMENT_GET_MIDI_INTERFACE", 48),
  ("RETRO_ENVIRONMENT_GET_FASTFORWARDING", 49),
  ("RETRO_ENVIRONMENT_GET_TARGET_REFRESH_RATE", 50),
  ("RETRO_ENVIRONMENT_GET_INPUT_BITMASKS", 51),
  ("RETRO_ENVIRONMENT_GET_CORE_OPTIONS_VERSION", 52),
  ("RETRO_ENVIRONMENT_SET_CORE_OPTIONS", 53),
  ("RETRO_ENVIRONMENT_SET_CORE_OPTIONS_INTL", 54),
  ("RETRO_ENVIRONMENT_SET_CORE_OPTIONS_DISPLAY", 55),
  ("RETRO_ENVIRONMENT_GET_PREFERRED_HW_RENDER", 56),
  ("RETRO_ENVIRONMENT_GET_DISK_CONTROL_INTERFACE_VERSION", 57),
  ("RETRO_ENVIRONMENT_SET_DISK_CONTROL_EXT_INTERFACE", 58),
  ("RETRO_ENVIRONMENT_GET_MESSAGE_INTERFACE_VERSION", 59),
  ("RETRO_ENVIRONMENT_SET_MESSAGE_EXT", 60),
  ("RETRO_ENVIRONMENT_GET_INPUT_MAX_USERS", 61),
  ("RETRO_ENVIRONMENT_SET_AUDIO_BUFFER_STATUS_CALLBACK", 62),
  ("RETRO_ENVIRONMENT_SET_MINIMUM_AUDIO_LATENCY", 63),
  ("RETRO_ENVIRONMENT_SET_FASTFORWARDING_OVERRIDE", 64),
  ("RETRO_ENVIRONMENT_SET_CONTENT_INFO_OVERRIDE", 65),
  ("RETRO_ENVIRONMENT_GET_GAME_INFO_EXT", 66),
  ("RETRO_ENVIRONMENT_SET_CORE_OPTIONS_V2", 67),
  ("RETRO_ENVIRONMENT_SET_CORE_OPTIONS_V2_INTL", 68),
  ("RETRO_ENVIRONMENT_SET_CORE_OPTIONS_UPDATE_DISPLAY_CALLBACK", 69),
  ("RETRO_ENVIRONMENT_SET_VARIABLE", 70),
  ("RETRO_ENVIRONMENT_GET_THROTTLE_STATE", 71)]

/-- `#define RETRO_MEMORY_SAVE_RAM 0` (libretro.h line 161). -/
def RETRO_MEMORY_SAVE_RAM : Nat := 0

/-- `#define RETRO_MEMORY_RTC 1` (libretro.h line 162). -/
def RETRO_MEMORY_RTC : Nat := 1

/-- `#define RETRO_MEMORY_SYSTEM_RAM 2` (libretro.h line 163). -/
def RETRO_MEMORY_SYSTEM_RAM : Nat := 2

/-- `#define RETRO_MEMORY_VIDEO_RAM 3` (libretro.h line 164). -/
def RETRO_MEMORY_VIDEO_RAM : Nat := 3

/-- The memory-region id constants, libretro.h lines 161-164, in source order. -/
def memoryRegionIds : List (String × Nat) := [
  ("RETRO_MEMORY_SAVE_RAM", RETRO_MEMORY_SAVE_RAM),
  ("RETRO_MEMORY_RTC", RETRO_MEMORY_RTC),
  ("RETRO_MEMORY_SYSTEM_RAM", RETRO_MEMORY_SYSTEM_RAM),
  ("RETRO_MEMORY_VIDEO_RAM", RETRO_MEMORY_VIDEO_RAM)]

/-- `#define RETRO_REGION_NTSC 0` (libretro.h line 167). -/
def RETRO_REGION_NTSC : Nat := 0

/-- `#define RETRO_REGION_PAL 1` (libretro.h line 168). -/
def RETRO_REGION_PAL : Nat := 1

/-- The region id constants, libretro.h lines 167-168, in source order. -/
def regionIds : List (String × Nat) := [
  ("RETRO_REGION_NTSC", RETRO_REGION_NTSC),
  ("RETRO_REGION_PAL", RETRO_REGION_PAL)]

/-- The field layout of `struct retro_game_info` (libretro.h lines 180-185):
field names with their C types, in declaration order. -/
def retro_game_info_fields : List (String × CType) := [
  ("path", .charConstPtr),
  ("data", .voidConstPtr),
  ("size", .size_t),
  ("meta", .charConstPtr)]

/-- A field value of one of the C types appearing in `retro_game_info`,
tagged with its type: pointers are modelled by their address. -/
inductive CValue where
  | charPtr (addr : Nat)
  | voidPtr (addr : Nat)
  | sz (n : Nat)
  deriving DecidableEq, Repr

/-- A populated `struct retro_game_info` value (libretro.h lines 180-185):
`path` and `meta` are `const char *`, `data` is `const void *`, `size` is
`size_t`; pointer fields are modelled by their address. -/
structure retro_game_info where
  path : Nat
  data : Nat
  size : Nat
  meta : Nat
  deriving DecidableEq, Repr

/-- Writing a `retro_game_info` through its declared layout: the field
values in declaration order `path`, `data`, `size`, `meta`. -/
def retro_game_info.toRaw (g : retro_game_info) : List CValue :=
  [.charPtr g.path, .voidPtr g.data, .sz g.size, .charPtr g.meta]

/-- Reading a `retro_game_info` back from a raw field sequence laid out as
`const char *`, `const void *`, `size_t`, `const char *`; any other shape
fails. -/
def retro_game_info.fromRaw : List CValue → Option retro_game_info
  | [.charPtr p, .voidPtr d, .sz s, .charPtr m] => some ⟨p, d, s, m⟩
  | _ => none

/-- Modelled from the spec: the implementations of the serialization
functions are in the statically linked emulator cores, which static_cores.h
only declares (their code is not under the repository's sources).  Per the
spec, a core's `retro_serialize_size` reports the byte size of its
serialized state and `retro_serialize` writes that state into the caller's
buffer, succeeding exactly when the buffer holds at least that many bytes.
The state of a loaded core is modelled by the byte string its current
emulated state serializes to. -/
structure CoreState where
  snapshot : List Nat
  deriving Repr

/-- Modelled from the spec: `retro_serialize_size` returns the size in
bytes a serialization of the current state needs. -/
def retro_serialize_size (s : CoreState) : Nat :=
  s.snapshot.length

/-- Modelled from the spec: `retro_serialize(data, size)` writes the
serialized state into a buffer of `size` bytes and returns whether it
succeeded, i.e. whether the buffer can hold the serialized state. -/
def retro_serialize (s : CoreState) (size : Nat) : Bool :=
  decide (retro_serialize_size s ≤ size)

set_option maxHeartbeats 8000000 in
/-- C1: for every one of the 25 functions of the base libretro API and for
every core prefix instantiated in static_cores.h, the per-core header
declares exactly one correspondingly prefixed counterpart with identical
parameter and return types (`bool` and `_Bool` identified), and it declares
no prefixed function that lacks a base counterpart. -/
theorem per_core_headers_mirror_base_api :
    ∀ p ∈ corePrefixes, coreBlockMatchesBase p := by
  decide

/-- Witness for C1 at the first instantiated prefix, `fceumm`. -/
theorem fceumm_block_matches_base : coreBlockMatchesBase "fceumm" :=
  per_core_headers_mirror_base_api "fceumm" (by decide)

/-- Counterexample to C2 as stated: the integer 4 lies in the range 1..71
but is not the value of any defined `RETRO_ENVIRONMENT_*` constant. -/
theorem env_command_value_four_missing :
    ¬ ∃ pr ∈ environmentCommands, pr.2 = 4 := by
  decide

/-- C2 (amended): every `RETRO_ENVIRONMENT_*` constant has a value between
1 and 71 inclusive, and every integer in that range except 4, 5, 20, 25 and
26 is the value of some defined environment-command constant. -/
theorem env_command_values_in_range_with_gaps :
    (∀ pr ∈ environmentCommands, 1 ≤ pr.2 ∧ pr.2 ≤ 71) ∧
    (∀ n : Nat, n ≤ 71 → 1 ≤ n → n ∉ ([4, 5, 20, 25, 26] : List Nat) →
      ∃ pr ∈ environmentCommands, pr.2 = n) := by
  decide

/-- Witness for C2 (amended) at the constant of value 1 and at the
integer 71. -/
theorem env_command_range_witness :
    (1 ≤ (("RETRO_ENVIRONMENT_SET_ROTATION", 1) : String × Nat).2 ∧
      (("RETRO_ENVIRONMENT_SET_ROTATION", 1) : String × Nat).2 ≤ 71) ∧
    ∃ pr ∈ environmentCommands, pr.2 = 71 :=
  ⟨env_command_values_in_range_with_gaps.1 ("RETRO_ENVIRONMENT_SET_ROTATION", 1) (by decide),
   env_command_values_in_range_with_gaps.2 71 (by decide) (by decide) (by decide)⟩

/-- C3: numeric constants are unique within their category: the
environment-command values, the joypad-button values, the device-type
values, the memory-region values and the region values are each pairwise
distinct. -/
theorem constant_values_unique_within_category :
    (environmentCommands.map Prod.snd).Nodup ∧
    (joypadButtons.map Prod.snd).Nodup ∧
    (deviceTypes.map Prod.snd).Nodup ∧
    (memoryRegionIds.map Prod.snd).Nodup ∧
    (regionIds.map Prod.snd).Nodup := by
  decide

/-- C4: the four memory-region constants take the values 0, 1, 2, 3 in
declaration order and the two region constants take the values 0, 1. -/
theorem memory_and_region_ids_exact_values :
    RETRO_MEMORY_SAVE_RAM = 0 ∧ RETRO_MEMORY_RTC = 1 ∧
    RETRO_MEMORY_SYSTEM_RAM = 2 ∧ RETRO_MEMORY_VIDEO_RAM = 3 ∧
    memoryRegionIds.map Prod.snd = [0, 1, 2, 3] ∧
    RETRO_REGION_NTSC = 0 ∧ RETRO_REGION_PAL = 1 ∧
    regionIds.map Prod.snd = [0, 1] := by
  decide

/-- C5: `struct retro_game_info` has exactly the four fields `path`
(const char pointer), `data` (const void pointer), `size` (size_t), `meta`
(const char pointer) in that order, and a round-trip of a populated value
through this layout preserves every field. -/
theorem game_info_layout_and_roundtrip :
    retro_game_info_fields =
      [("path", CType.charConstPtr), ("data", CType.voidConstPtr),
       ("size", CType.size_t), ("meta", CType.charConstPtr)] ∧
    ∀ g : retro_game_info, retro_game_info.fromRaw g.toRaw = some g :=
  ⟨rfl, fun _ => rfl⟩

/-- Witness for C5 at a concrete populated value. -/
theorem game_info_roundtrip_at_sample :
    retro_game_info.fromRaw (retro_game_info.toRaw ⟨10, 20, 30, 40⟩) =
      some ⟨10, 20, 30, 40⟩ :=
  game_info_layout_and_roundtrip.2 ⟨10, 20, 30, 40⟩

/-- C6: the per-core symbol prefixes instantiated by static_cores.h are
exactly the eight listed ones, each appearing exactly once. -/
theorem static_core_prefix_list_exact :
    corePrefixes = ["fceumm", "gambatte", "mgba", "clownmdemu",
      "melonds", "mupen64plus_next", "pcsx_rearmed", "bsnes"] ∧
    corePrefixes.Nodup := by
  decide

/-- C7: `retro_load_game`, `retro_serialize` and `retro_unserialize` are
each declared in the base API with `_Bool` return type, and the
`retro_environment_t` callback type likewise returns `_Bool`. -/
theorem boolean_returning_calls :
    (∃ sig ∈ baseAPI, sig.name = "retro_load_game" ∧ sig.ret = CType.bool) ∧
    (∃ sig ∈ baseAPI, sig.name = "retro_serialize" ∧ sig.ret = CType.bool) ∧
    (∃ sig ∈ baseAPI, sig.name = "retro_unserialize" ∧ sig.ret = CType.bool) ∧
    retro_environment_t_sig.ret = CType.bool := by
  decide

/-- C8: serialization is size-stable: whenever `retro_serialize_size`
reports `n` for the current state, an immediately following
`retro_serialize` into a buffer of size `n` succeeds. -/
theorem serialize_size_stable :
    ∀ (s : CoreState) (n : Nat),
      retro_serialize_size s = n → retro_serialize s n = true := by
  intro s n h
  subst h
  simp [retro_serialize]

/-- Witness for C8 at a concrete three-byte state. -/
theorem serialize_size_stable_at_sample :
    retro_serialize ⟨[7, 8, 9]⟩ 3 = true :=
  serialize_size_stable ⟨[7, 8, 9]⟩ 3 (by decide)

/-- C9: the environment-command enumeration has gaps: exactly 66 constants
are defined, all with values in 1..71, and none of 4, 5, 20, 25, 26 is the
value of a defined constant. -/
theorem env_command_enumeration_gaps :
    environmentCommands.length = 66 ∧
    (∀ pr ∈ environmentCommands, 1 ≤ pr.2 ∧ pr.2 ≤ 71) ∧
    (∀ v ∈ ([4, 5, 20, 25, 26] : List Nat),
      ¬ ∃ pr ∈ environmentCommands, pr.2 = v) := by
  decide

/-- Witness for C9 at the constant of value 71 and the gap value 20. -/
theorem env_command_gap_witness :
    (1 ≤ (("RETRO_ENVIRONMENT_GET_THROTTLE_STATE", 71) : String × Nat).2 ∧
      (("RETRO_ENVIRONMENT_GET_THROTTLE_STATE", 71) : String × Nat).2 ≤ 71) ∧
    ¬ ∃ pr ∈ environmentCommands, pr.2 = 20 :=
  ⟨env_command_enumeration_gaps.2.1 ("RETRO_ENVIRONMENT_GET_THROTTLE_STATE", 71) (by decide),
   env_command_enumeration_gaps.2.2 20 (by decide)⟩

/-- C10: the sixteen joypad-button constants other than the mask form
exactly the contiguous value range 0..15, the mask constant equals 256, and
hence every defined joypad id is below 16 or equal to 256. -/
theorem joypad_ids_contiguous_plus_mask :
    (joypadButtons.filter
        (fun pr => pr.1 != "RETRO_DEVICE_ID_JOYPAD_MASK")).map Prod.snd =
      List.range 16 ∧
    (∃ pr ∈ joypadButtons,
      pr.1 = "RETRO_DEVICE_ID_JOYPAD_MASK" ∧ pr.2 = 256) ∧
    (∀ pr ∈ joypadButtons, pr.2 < 16 ∨ pr.2 = 256) := by
  decide

/-- Witness for C10 at the mask constant. -/
theorem joypad_mask_witness :
    ((("RETRO_DEVICE_ID_JOYPAD_MASK", 256) : String × Nat).2 < 16 ∨
      (("RETRO_DEVICE_ID_JOYPAD_MASK", 256) : String × Nat).2 = 256) :=
  joypad_ids_contiguous_plus_mask.2.2 ("RETRO_DEVICE_ID_JOYPAD_MASK", 256) (by decide)

end Yearn
